import Mathlib

/-!
Shallow embedding of the XAI Learning Experience Platform backend
(`lxp/api.py`, `lxp/models.py`, `lxp/grok_service.py`).

Pure Lean translations of the grading engine, progress coordinator,
path-completion aggregator, context builder, and mentor-orchestrator
fallback logic, followed by theorems settling the specification claims.
-/

namespace LXP

/-! ## Grading engine (`submit_assessment`, api.py lines 559-635)

An assessment question is a JSON object with keys `id`, `correct_answer`
and `question`; `question.get(k)` returns `None` when the key is absent,
modelled by `Option`. Submitted answers form a dict from question id to
the submitted value, modelled as an association list with unique keys. -/

structure Question where
  qid : String
  correctAnswer : Option String
  questionText : Option String
  deriving DecidableEq, Repr

abbrev Answers := List (String × String)

/-- Model of `question_id in payload.answers` and `payload.answers[question_id]`. -/
def lookupAnswer (answers : Answers) (k : String) : Option String :=
  (answers.find? (fun kv => kv.1 = k)).map (fun kv => kv.2)

/-- The `correct_answers` counting loop of `submit_assessment`:
a question counts iff its id is a key of the answers dict and the
submitted value equals the question's `correct_answer`. -/
def correctAnswers (questions : List Question) (answers : Answers) : Nat :=
  questions.foldl (fun acc q =>
    match lookupAnswer answers q.qid with
    | some v => if q.correctAnswer = some v then acc + 1 else acc
    | none => acc) 0

/-- Model of `score = (correct_answers / total_questions * 100) if total_questions > 0 else 0`. -/
def scoreOf (questions : List Question) (answers : Answers) : ℚ :=
  if questions.length > 0 then
    (correctAnswers questions answers : ℚ) / (questions.length : ℚ) * 100
  else 0

/-- Model of `passed = score >= assessment.passing_score`. -/
def passedOf (questions : List Question) (answers : Answers) (passing_score : ℤ) : Bool :=
  scoreOf questions answers ≥ (passing_score : ℚ)

/-- The `questions_missed` loop of `submit_assessment`: a question's text is
appended iff its id is a key of the answers dict and the submitted value
differs from `correct_answer`; the text defaults to `"Unknown question"`. -/
def questionsMissed (questions : List Question) (answers : Answers) : List String :=
  questions.foldl (fun acc q =>
    match lookupAnswer answers q.qid with
    | some v => if ¬ (q.correctAnswer = some v) then
        acc ++ [q.questionText.getD "Unknown question"] else acc
    | none => acc) []

/-! Scenario A data: 4 questions keyed q1:a, q2:b, q3:c, q4:d; submission
answers q1:a, q2:b, q3:x; q4 unanswered. -/

def scenarioAQuestions : List Question :=
  [⟨"q1", some "a", some "Question one"⟩,
   ⟨"q2", some "b", some "Question two"⟩,
   ⟨"q3", some "c", some "Question three"⟩,
   ⟨"q4", some "d", some "Question four"⟩]

def scenarioAAnswers : Answers :=
  [("q1", "a"), ("q2", "b"), ("q3", "x")]

/-- Specification-side predicate: the question's id is a key of the answers
dict and the submitted value differs from the question's correct answer. -/
def answeredWrong (answers : Answers) (q : Question) : Bool :=
  match lookupAnswer answers q.qid with
  | some v => ¬ (q.correctAnswer = some v)
  | none => false

/-- Specification-side predicate: the question's id is a key of the answers
dict and the submitted value equals the question's correct answer. -/
def answeredRight (answers : Answers) (q : Question) : Bool :=
  match lookupAnswer answers q.qid with
  | some v => q.correctAnswer = some v
  | none => false

def missedText (q : Question) : String :=
  q.questionText.getD "Unknown question"

/-! ## Progress records (`models.Progress`, `update_progress` api.py 495-524,
and the assessment-driven update in `submit_assessment` api.py 612-630)

Timestamps are modelled as naturals; `datetime.now()` becomes an explicit
`now` argument. Float fields are modelled as rationals. -/

structure Progress where
  status : String
  completion_percentage : ℚ
  time_spent_minutes : ℤ
  mastery_level : ℚ
  score : Option ℚ
  started_at : Option ℕ
  completed_at : Option ℕ
  deriving DecidableEq, Repr

/-- A freshly created row: `Progress.objects.create(..., status='not_started')`
with the model-field defaults of `models.Progress`. -/
def Progress.init : Progress :=
  { status := "not_started", completion_percentage := 0, time_spent_minutes := 0,
    mastery_level := 0, score := none, started_at := none, completed_at := none }

/-- The `ProgressInputSchema` payload: every field optional. -/
structure ProgressInput where
  status : Option String
  completion_percentage : Option ℚ
  time_spent_minutes : Option ℤ
  mastery_level : Option ℚ
  score : Option ℚ
  deriving DecidableEq, Repr

def ProgressInput.empty : ProgressInput :=
  { status := none, completion_percentage := none, time_spent_minutes := none,
    mastery_level := none, score := none }

/-- The `if payload.status:` block of `update_progress` (api.py 500-505).
`if payload.status:` is Python truthiness: the branch runs only when the
status is present and non-empty. -/
def updateProgressStatus (p : Progress) (status? : Option String) (now : ℕ) : Progress :=
  match status? with
  | some s =>
    if s ≠ "" then
      let q := { p with status := s }
      if s = "in_progress" ∧ p.started_at = none then
        { q with started_at := some now }
      else if s = "completed" ∧ p.completed_at = none then
        { q with completed_at := some now }
      else q
    else p
  | none => p

/-- Model of `update_progress` (api.py 495-524): the status block followed
by the four partial field updates. -/
def update_progress (p : Progress) (payload : ProgressInput) (now : ℕ) : Progress :=
  let p1 := updateProgressStatus p payload.status now
  let p2 := match payload.completion_percentage with
    | some c => { p1 with completion_percentage := c }
    | none => p1
  let p3 := match payload.time_spent_minutes with
    | some t => { p2 with time_spent_minutes := t }
    | none => p2
  let p4 := match payload.mastery_level with
    | some m => { p3 with mastery_level := m }
    | none => p3
  match payload.score with
  | some sc => { p4 with score := sc }
  | none => p4

/-- The assessment-driven mutation of a matched Progress row
(api.py 620-628): set `score` and `mastery_level` to the assessment score;
if passed, force `completed` with `completed_at` stamped and
`completion_percentage = 100`; otherwise force `needs_review`. -/
def applyAssessmentResult (p : Progress) (score : ℚ) (passed : Bool) (now : ℕ) : Progress :=
  let q := { p with score := some score, mastery_level := score }
  if passed then
    { q with status := "completed", completed_at := some now, completion_percentage := 100 }
  else
    { q with status := "needs_review" }

/-- One step in the life of a Progress row: a manual `update_progress` call
or an assessment-driven update that matched this row. -/
inductive ProgressOp where
  | manual (payload : ProgressInput) (now : ℕ)
  | assessment (score : ℚ) (passed : Bool) (now : ℕ)
  deriving Repr

def applyOp (p : Progress) : ProgressOp → Progress
  | .manual payload now => update_progress p payload now
  | .assessment score passed now => applyAssessmentResult p score passed now

def applyOps (p : Progress) (ops : List ProgressOp) : Progress :=
  ops.foldl applyOp p

/-! ### Keyed progress rows for the assessment-driven lookup (api.py 612-630)

`Progress.objects.get(student=..., learning_path_id=..., content=...)`
fetches the unique matching row (`unique_together ['student',
'learning_path', 'content']` in `models.Progress`); `DoesNotExist` is
swallowed by `except ... pass`. -/

structure ProgressKey where
  student : ℕ
  learning_path : ℕ
  content : ℕ
  deriving DecidableEq, Repr

structure ProgressRow where
  key : ProgressKey
  data : Progress
  deriving DecidableEq, Repr

/-- The `try: ... Progress.objects.get ... except Progress.DoesNotExist: pass`
block: mutate the first row matching the key (unique by the table
constraint), leave the store untouched when no row matches. -/
def updateMatchingProgress (key : ProgressKey) (score : ℚ) (passed : Bool)
    (now : ℕ) : List ProgressRow → List ProgressRow
  | [] => []
  | r :: rs =>
    if r.key = key then
      { r with data := applyAssessmentResult r.data score passed now } :: rs
    else
      r :: updateMatchingProgress key score passed now rs

/-- The guard `if payload.learning_path_id and assessment.content:` of
`submit_assessment` (api.py 613): both links must be present (and the id
truthy) for the progress update to run at all. -/
def submitProgressUpdate (learning_path_id : Option ℕ) (content_id : Option ℕ)
    (student_id : ℕ) (score : ℚ) (passed : Bool) (now : ℕ)
    (rows : List ProgressRow) : List ProgressRow :=
  match learning_path_id, content_id with
  | some lp, some c =>
    if lp ≠ 0 then
      updateMatchingProgress ⟨student_id, lp, c⟩ score passed now rows
    else rows
  | _, _ => rows

/-! ## Path completion aggregator
(`LearningPath.completion_percentage`, models.py 186-198) -/

/-- Python's `round` on a number: round to the nearest integer,
ties to the even integer (banker's rounding). -/
def pyRound (q : ℚ) : ℤ :=
  let f := ⌊q⌋
  let r := q - (f : ℚ)
  if r < 1/2 then f
  else if 1/2 < r then f + 1
  else if f % 2 = 0 then f else f + 1

/-- Python's `round(x, 2)`: round to 2 decimal places. -/
def pyRound2 (q : ℚ) : ℚ :=
  (pyRound (q * 100) : ℚ) / 100

/-- A `ContentAssignment` row as far as the aggregator needs it: the
aggregator only counts them (`self.content_assignments.count()`). -/
structure ContentAssignment where
  content : ℕ
  order : ℤ
  is_required : Bool
  deriving DecidableEq, Repr

/-- Model of `LearningPath.completion_percentage` (models.py 186-198):
`round((completed_content / total_content) * 100, 2)` over the path's
assignment count and its Progress rows with `completed_at` set;
`0.0` when the path has no assignments. -/
def completionPercentage (assignments : List ContentAssignment)
    (progressRows : List Progress) : ℚ :=
  let total_content := assignments.length
  if total_content = 0 then 0
  else
    let completed_content :=
      (progressRows.filter (fun p => ¬ (p.completed_at = none))).length
    pyRound2 ((completed_content : ℚ) / (total_content : ℚ) * 100)

/-! ## Grok service (`grok_service.py`)

The external LLM call is modelled by its outcome: either the content
string of the first choice, or the raised exception's message string
(the code classifies errors by substring-matching `str(e)`). -/

/-- Strings are manipulated at the level of their code points (Python
`str` semantics): `toList`-based helpers below model `strip`, `lower`,
`split` and `in`. -/

def pyStrip (s : List Char) : List Char :=
  ((s.dropWhile Char.isWhitespace).reverse.dropWhile Char.isWhitespace).reverse

/-- Python's per-character `str.lower()` (adequate for the ASCII phrases
the service matches on). -/
def pyLower (s : List Char) : List Char :=
  s.map Char.toLower

/-- Python's `str.split(sep)` for a one-character separator; keeps empty
segments, like Python. -/
def splitOnChar (sep : Char) : List Char → List (List Char)
  | [] => [[]]
  | c :: cs =>
    let r := splitOnChar sep cs
    if c = sep then [] :: r
    else
      match r with
      | h :: t => (c :: h) :: t
      | [] => [[c]]

/-- Python's `sub in s` substring containment. -/
def containsSub (s pat : List Char) : Bool :=
  decide ( List.IsInfix pat s)

inductive LLMOutcome where
  | ok (content : String)
  | error (message : String)
  deriving DecidableEq, Repr

/-! ### `GrokService.chat` (grok_service.py 21-98) -/

def emptyQueryMessage : String :=
  "I didn't receive a question. What would you like to know?"

def refusalRedirectMessage : String :=
  "I'd be happy to help with your studies! Could you rephrase your question or ask about a specific topic you're learning?"

def timeoutFallbackMessage : String :=
  "I'm taking a bit longer to think. Could you try asking your question again?"

def authFallbackMessage : String :=
  "I'm having trouble connecting to my knowledge base. Please let your teacher know."

def rateLimitFallbackMessage : String :=
  "I'm getting too many questions right now. Please wait a moment and try again."

def genericFallbackMessage : String :=
  "I encountered an issue, but I'm here to help! Could you try rephrasing your question?"

/-- The `except Exception` branch of `GrokService.chat` (grok_service.py
85-98): classify by substring of the lowercased error text. -/
def chatErrorFallback (msg : String) : String :=
  let m := pyLower msg.toList
  if containsSub m "timeout".toList then timeoutFallbackMessage
  else if containsSub m "api_key".toList || containsSub m "authentication".toList then
    authFallbackMessage
  else if containsSub m "rate_limit".toList then rateLimitFallbackMessage
  else genericFallbackMessage

def refusalPhrases : List String :=
  ["i cannot", "i'm unable to", "against my programming"]

/-- Model of `GrokService.chat` (grok_service.py 21-98). An empty/whitespace query
short-circuits before the API call; an empty response content raises
`ValueError("Empty response content from API")`, which the same `except`
block then classifies. -/
def GrokService.chat (user_message : String) (outcome : LLMOutcome) : String :=
  if pyStrip user_message.toList = [] then emptyQueryMessage
  else
    match outcome with
    | .ok content =>
      if pyStrip content.toList = [] then
        chatErrorFallback "Empty response content from API"
      else if refusalPhrases.any
          (fun p => containsSub (pyLower content.toList) p.toList) then
        refusalRedirectMessage
      else String.mk (pyStrip content.toList)
    | .error msg => chatErrorFallback msg

/-! ### `GrokService.generate_personalized_goals` (grok_service.py 100-169)
and `GrokService._get_fallback_goals` (grok_service.py 171-179) -/

def GrokService.getFallbackGoals (subject difficulty : String) : List String :=
  let subject_name := if subject = "" then "the subject" else subject
  ["Understand and master core concepts in " ++ subject_name,
   "Complete all assigned content at " ++ difficulty ++ " level with 80%+ accuracy",
   "Apply " ++ subject_name ++ " knowledge to solve real-world problems",
   "Demonstrate mastery through assessments and projects"]

/-- The character set of `line.lstrip('-*•0123456789. ')`. -/
def bulletStripChars : List Char :=
  ['-', '*', '•', '0', '1', '2', '3', '4', '5', '6', '7', '8', '9', '.', ' ']

/-- Model of `line and (line.startswith('-') or line.startswith('*') or
line.startswith('•') or (line[0].isdigit() and '.' in line[:3]))`. -/
def isBulletLine (line : List Char) : Bool :=
  ¬ (line = []) &&
    (line.head? = some '-' || line.head? = some '*' || line.head? = some '•' ||
      ((line.headD ' ').isDigit && (line.take 3).contains '.'))

/-- Model of `line.lstrip('-*•0123456789. ').strip()`. -/
def cleanGoal (line : List Char) : List Char :=
  pyStrip (line.dropWhile (fun c => bulletStripChars.contains c))

/-- The bullet-parsing loop of `generate_personalized_goals`
(grok_service.py 147-157): strip each line, keep bullet/numbered lines
whose cleaned text is non-empty and longer than 10 characters. -/
def extractGoals (response : String) : List String :=
  (splitOnChar (Char.ofNat 10) response.toList).foldl (fun goals rawLine =>
    let line := pyStrip rawLine
    if isBulletLine line then
      let goal := cleanGoal line
      if ¬ (goal = []) && goal.length > 10 then goals ++ [String.mk goal] else goals
    else goals) []

/-- Specification-side predicate: a stripped line that the parsing loop
keeps, i.e. a bullet/numbered line whose cleaned text is non-empty and
longer than 10 characters. -/
def validGoalLine (line : List Char) : Bool :=
  isBulletLine line && (¬ (cleanGoal line = []) && (cleanGoal line).length > 10)

/-- Model of `GrokService.generate_personalized_goals` (grok_service.py 100-169).
The returned flag records whether the external client was invoked: the
input-validation guard (line 113) returns the fallback before any API
call. An API error, an empty response, or fewer than 3 parsed goals all
fall back; otherwise at most 5 cleaned goals are returned. -/
def GrokService.generatePersonalizedGoals (student_grade : ℤ)
    (subject difficulty : String) (outcome : LLMOutcome) : List String × Bool :=
  if subject = "" || student_grade < 1 then
    (GrokService.getFallbackGoals subject difficulty, false)
  else
    match outcome with
    | .error _ => (GrokService.getFallbackGoals subject difficulty, true)
    | .ok response =>
      if pyStrip response.toList = [] then
        (GrokService.getFallbackGoals subject difficulty, true)
      else
        let goals := extractGoals response
        if goals.length ≥ 3 then (goals.take 5, true)
        else (GrokService.getFallbackGoals subject difficulty, true)

/-! ## AI-mentor context builder and endpoint
(`chat_with_ai_mentor`, api.py 642-732)

The snapshot bundles everything the endpoint reads from the record store:
the student row, the (optional) learning path with its assignments, the
(optional) content row being viewed, the Progress table (in its
`-updated_at` query order) and the Content titles. -/

structure StudentRec where
  grade_level : ℤ
  first_name : String
  deriving DecidableEq, Repr

structure ContentRec where
  title : String
  content_type : String
  deriving DecidableEq, Repr

structure PathData where
  path_id : ℕ
  title : String
  subject_name : String
  difficulty_level : String
  assignments : List ContentAssignment
  deriving DecidableEq, Repr

structure MentorSnapshot where
  student_id : ℕ
  student : StudentRec
  path : Option PathData
  content : Option ContentRec
  rows : List ProgressRow
  contents : List (ℕ × ContentRec)
  deriving DecidableEq, Repr

/-- The `context_data` dict: `student_grade`/`student_name` always,
`subject`/`difficulty` when a learning path is given,
`current_content`/`content_type` when a content item is given. -/
structure ContextData where
  student_grade : ℤ
  student_name : String
  subject : Option String
  difficulty : Option String
  current_content : Option String
  content_type : Option String
  deriving DecidableEq, Repr

/-- Python's `f"{x:.0f}"` on a non-negative value: round to the nearest
integer, ties to even, and print. -/
def fmtF0 (q : ℚ) : String :=
  toString (pyRound q)

/-- Model of `p.content.title` for a progress row: look the row's content id up in
the Content table. -/
def contentTitle (contents : List (ℕ × ContentRec)) (cid : ℕ) : String :=
  match contents.find? (fun kv => kv.1 = cid) with
  | some kv => kv.2.title
  | none => ""

/-- The context-aggregation block of `chat_with_ai_mentor` (api.py
647-711): builds the `context_data` dict and the joined
`system_context` string (None when no fragment applies). -/
def buildMentorContext (snap : MentorSnapshot) : ContextData × Option String :=
  let base : ContextData :=
    { student_grade := snap.student.grade_level,
      student_name := snap.student.first_name,
      subject := none, difficulty := none,
      current_content := none, content_type := none }
  let step1 : ContextData × List String :=
    match snap.path with
    | some pd =>
      let ctx := { base with subject := some pd.subject_name,
                             difficulty := some pd.difficulty_level }
      let pathRows :=
        (snap.rows.filter (fun r => r.key.learning_path = pd.path_id)).map
          (fun r => r.data)
      let completion := completionPercentage pd.assignments pathRows
      let part1 := "The student is working on: '" ++ pd.title ++
        "' (Completion: " ++ fmtF0 completion ++ "%)"
      let progress_records := snap.rows.filter
        (fun r => r.key.student = snap.student_id ∧ r.key.learning_path = pd.path_id)
      let statParts :=
        if progress_records = [] then []
        else
          let completed_count :=
            (progress_records.filter (fun r => r.data.status = "completed")).length
          let in_progress_count :=
            (progress_records.filter (fun r => r.data.status = "in_progress")).length
          let avg_mastery :=
            (progress_records.map (fun r => r.data.mastery_level)).sum /
              (progress_records.length : ℚ)
          let part2 := "Progress: " ++ toString completed_count ++
            " items completed, " ++ toString in_progress_count ++
            " in progress. Average mastery: " ++ fmtF0 avg_mastery ++ "%."
          let struggling := progress_records.filter
            (fun r => r.data.mastery_level < 60)
          let p3 :=
            if struggling = [] then []
            else ["Areas needing support: " ++
              String.intercalate ", " ((struggling.take 3).map
                (fun r => contentTitle snap.contents r.key.content)) ++ "."]
          let strengths := progress_records.filter
            (fun r => r.data.mastery_level ≥ 80)
          let p4 :=
            if strengths = [] then []
            else ["Strong areas: " ++
              String.intercalate ", " ((strengths.take 3).map
                (fun r => contentTitle snap.contents r.key.content)) ++ "."]
          [part2] ++ p3 ++ p4
      (ctx, [part1] ++ statParts)
    | none => (base, [])
  let step2 : ContextData × List String :=
    match snap.content with
    | some c =>
      ({ step1.1 with current_content := some c.title,
                      content_type := some c.content_type },
        step1.2 ++ ["The student is currently viewing: '" ++ c.title ++ "' (" ++
          c.content_type ++ "). Focus your help on this specific content."])
    | none => step1
  (step2.1,
    if step2.2 = [] then none else some (String.intercalate " " step2.2))

/-- An `AIMentorSession` row as created at api.py 721-728. -/
structure AIMentorSession where
  student_id : ℕ
  learning_path_id : Option ℕ
  session_type : String
  query : String
  response : String
  context_data : ContextData
  deriving DecidableEq, Repr

/-- The `chat_with_ai_mentor` endpoint (api.py 642-732): build the context,
get the response (the Grok outcome is the explicit `outcome` argument),
append the session row, return the response text and the session log. -/
def chatWithAIMentor (snap : MentorSnapshot) (learning_path_id : Option ℕ)
    (session_type query : String) (outcome : LLMOutcome)
    (sessions : List AIMentorSession) : String × List AIMentorSession :=
  let ctx := buildMentorContext snap
  let response_text := GrokService.chat query outcome
  (response_text,
    sessions ++ [{ student_id := snap.student_id,
                   learning_path_id := learning_path_id,
                   session_type := session_type, query := query,
                   response := response_text, context_data := ctx.1 }])

/-! ## Theorems -/

/-- A left fold that conditionally appends one element per input is a
filter followed by a map. Shared by the grading and goal-parsing loops. -/
theorem foldl_filter_append {α β : Type} (p : α → Bool) (f : α → β) :
    ∀ (l : List α) (a : List β),
      l.foldl (fun acc x => if p x then acc ++ [f x] else acc) a
        = a ++ (l.filter p).map f := by
  intro l
  induction l with
  | nil => intro a; simp
  | cons x xs ih =>
    intro a
    by_cases h : p x <;> simp [h, ih]

/-- The missed-question loop collects exactly the answered-and-wrong
questions, in question order. -/
theorem questionsMissed_eq_filter (questions : List Question) (answers : Answers) :
    questionsMissed questions answers =
      (questions.filter (answeredWrong answers)).map missedText := by
  have hfun : (fun (acc : List String) (q : Question) =>
      match lookupAnswer answers q.qid with
      | some v => if ¬ (q.correctAnswer = some v) then
          acc ++ [q.questionText.getD "Unknown question"] else acc
      | none => acc)
      = (fun acc q => if answeredWrong answers q then acc ++ [missedText q] else acc) := by
    funext acc q
    rcases h : lookupAnswer answers q.qid with _ | v <;>
      simp [answeredWrong, h, missedText]
  rw [questionsMissed, hfun, foldl_filter_append]
  simp

/-- C1 counterexample: in scenario A (4 questions keyed a,b,c,d;
submission q1:a, q2:b, q3:x; q4 unanswered), the code's missed-question
list is `[text(q3)]` — the unanswered q4 is NOT included, so the list is
not `[text(q3), text(q4)]` as the claim asserts. -/
theorem c1_missed_list_counterexample :
    questionsMissed scenarioAQuestions scenarioAAnswers = ["Question three"] ∧
    questionsMissed scenarioAQuestions scenarioAAnswers ≠
      ["Question three", "Question four"] := by
  constructor
  · decide
  · decide

/-- C1 (amended): the missed-question list contains, in question order,
the text of every question whose id is present in the submitted answers
with a value differing from the answer key; questions left unanswered are
NOT included. In scenario A the grading yields score 50.0, passed false,
and missed list `[text(q3)]` only. -/
theorem c1_missed_questions_amended :
    (∀ (questions : List Question) (answers : Answers),
      questionsMissed questions answers =
        (questions.filter (answeredWrong answers)).map missedText) ∧
    scoreOf scenarioAQuestions scenarioAAnswers = 50 ∧
    passedOf scenarioAQuestions scenarioAAnswers 70 = false ∧
    questionsMissed scenarioAQuestions scenarioAAnswers = ["Question three"] := by
  refine ⟨questionsMissed_eq_filter, ?_, ?_, by decide⟩
  · rw [scoreOf, show correctAnswers scenarioAQuestions scenarioAAnswers = 2 from by decide,
      show scenarioAQuestions.length = 4 from rfl]
    norm_num
  · rw [passedOf, scoreOf,
      show correctAnswers scenarioAQuestions scenarioAAnswers = 2 from by decide,
      show scenarioAQuestions.length = 4 from rfl]
    norm_num

/-- C3 counterexample: an assessment with an empty question list and
`passing_score = 0` grades to score 0 but `passed = (0 >= 0) = True`,
not false as the claim asserts for `passing_score ≤ 0`. -/
theorem c3_empty_assessment_counterexample :
    scoreOf [] [] = 0 ∧ passedOf [] [] 0 = true := by
  constructor
  · simp [scoreOf]
  · simp [passedOf, scoreOf]

/-- C3 (amended): for an assessment with no questions the score is exactly
0 and `passed = (0 >= passing_score)`: false exactly when the passing
score is positive, true when `passing_score ≤ 0`. -/
theorem c3_empty_assessment_amended (answers : Answers) (passing_score : ℤ) :
    scoreOf [] answers = 0 ∧
      (passedOf [] answers passing_score = true ↔ passing_score ≤ 0) := by
  refine ⟨by simp [scoreOf], ?_⟩
  simp only [passedOf, scoreOf, List.length_nil, gt_iff_lt, lt_self_iff_false,
    if_false, decide_eq_true_eq, ge_iff_le]
  exact_mod_cast Iff.rfl

/-- The four partial field updates after the status block change neither
`status`, `started_at` nor `completed_at`. -/
theorem update_progress_proj (p : Progress) (payload : ProgressInput) (now : ℕ) :
    (update_progress p payload now).status
        = (updateProgressStatus p payload.status now).status ∧
      (update_progress p payload now).started_at
        = (updateProgressStatus p payload.status now).started_at ∧
      (update_progress p payload now).completed_at
        = (updateProgressStatus p payload.status now).completed_at := by
  rcases payload with ⟨st, cp, ts, ml, sc⟩
  cases cp <;> cases ts <;> cases ml <;> cases sc <;> exact ⟨rfl, rfl, rfl⟩

/-- The status block preserves the one-directional invariant. -/
theorem updateProgressStatus_completed_at (p : Progress) (st : Option String) (now : ℕ)
    (h : p.status = "completed" → p.completed_at ≠ none) :
    (updateProgressStatus p st now).status = "completed" →
      (updateProgressStatus p st now).completed_at ≠ none := by
  cases st with
  | none => simpa [updateProgressStatus] using h
  | some s =>
    by_cases hs : s = ""
    · simpa [updateProgressStatus, hs] using h
    · simp only [updateProgressStatus, ne_eq, hs, not_false_eq_true, if_true]
      split_ifs with h1 h2
      · intro hc
        simp only at hc
        rw [hc] at h1
        simp at h1
      · intro _
        simp
      · intro hc
        simp only at hc
        subst hc
        simpa using h2

/-- A single manual or assessment-driven update preserves the direction
of the invariant that does hold: a row with status `completed` always
carries a `completed_at` timestamp. -/
theorem applyOp_completed_at_of_completed (p : Progress) (op : ProgressOp)
    (h : p.status = "completed" → p.completed_at ≠ none) :
    (applyOp p op).status = "completed" → (applyOp p op).completed_at ≠ none := by
  cases op with
  | assessment s passed now =>
    simp only [applyOp, applyAssessmentResult]
    cases passed <;> simp
  | manual payload now =>
    simp only [applyOp]
    rw [(update_progress_proj p payload now).1,
        (update_progress_proj p payload now).2.2]
    exact updateProgressStatus_completed_at p payload.status now h

/-- The one-row invariant propagates along any operation sequence. -/
theorem applyOps_completed_at_of_completed (ops : List ProgressOp) :
    ∀ (p : Progress), (p.status = "completed" → p.completed_at ≠ none) →
      ((applyOps p ops).status = "completed" → (applyOps p ops).completed_at ≠ none) := by
  induction ops with
  | nil => intro p h; simpa [applyOps] using h
  | cons op ops ih =>
    intro p h
    have := ih (applyOp p op) (applyOp_completed_at_of_completed p op h)
    simpa [applyOps, List.foldl_cons] using this

/-- C2 counterexample: starting from a fresh record, the single manual
update `{status: "completed"}` (no completion_percentage supplied) leaves
the record with status `completed` but `completion_percentage = 0`, so
the claimed invariant `status == completed → completion_percentage == 100`
fails; moreover a subsequent `{status: "in_progress"}` update leaves
`completed_at` set while the status is no longer `completed`, refuting the
claimed biconditional. -/
theorem c2_invariant_counterexample :
    (applyOps Progress.init
        [ProgressOp.manual { ProgressInput.empty with status := some "completed" } 5]).status
      = "completed" ∧
    (applyOps Progress.init
        [ProgressOp.manual { ProgressInput.empty with status := some "completed" } 5]).completion_percentage
      ≠ 100 ∧
    (applyOps Progress.init
        [ProgressOp.manual { ProgressInput.empty with status := some "completed" } 5,
         ProgressOp.manual { ProgressInput.empty with status := some "in_progress" } 6]).status
      ≠ "completed" ∧
    (applyOps Progress.init
        [ProgressOp.manual { ProgressInput.empty with status := some "completed" } 5,
         ProgressOp.manual { ProgressInput.empty with status := some "in_progress" } 6]).completed_at
      = some 5 := by
  refine ⟨by decide, ?_, by decide, by decide⟩
  show ¬ ((0 : ℚ) = 100)
  norm_num

/-- C2 (amended): after any sequence of manual and assessment-driven
updates on a freshly created record, `status == "completed"` implies
`completed_at` is set. The converse implication and the
`completion_percentage == 100` clause of the claim do NOT hold (see the
counterexample): a manual update can set status `completed` without
touching the percentage, and `completed_at` survives a later status
change. -/
theorem c2_completed_implies_timestamp_amended (ops : List ProgressOp)
    (h : (applyOps Progress.init ops).status = "completed") :
    (applyOps Progress.init ops).completed_at ≠ none :=
  applyOps_completed_at_of_completed ops Progress.init (by simp [Progress.init]) h

/-- C2 witness: a concrete sequence reaching status `completed` indeed has
`completed_at` set. -/
theorem c2_completed_implies_timestamp_witness :
    (applyOps Progress.init
        [ProgressOp.manual { ProgressInput.empty with status := some "completed" } 5]).completed_at
      ≠ none :=
  c2_completed_implies_timestamp_amended
    [ProgressOp.manual { ProgressInput.empty with status := some "completed" } 5]
    (by decide)

/-- The aggregator computes `round(100 * completed / total, 2)` with a zero
denominator mapped to 0. -/
theorem completionPercentage_eq (assignments : List ContentAssignment)
    (rows : List Progress) :
    completionPercentage assignments rows =
      if assignments.length = 0 then 0
      else pyRound2 (100 * (rows.countP (fun p => ¬ (p.completed_at = none)) : ℚ)
        / (assignments.length : ℚ)) := by
  by_cases h : assignments.length = 0
  · simp [completionPercentage, h]
  · simp only [completionPercentage, h, if_false]
    congr 1
    rw [List.countP_eq_length_filter]
    field_simp
    ring

/-- C4: the derived completion percentage equals 100 times the number of
Progress rows with `completed_at` set, divided by the number of
ContentAssignment rows, rounded to 2 decimal places, and is 0 when the
path has no assignments; scenario B (3 assignments, 2 completed rows)
yields 66.67. -/
theorem c4_path_completion :
    (∀ (assignments : List ContentAssignment) (rows : List Progress),
        completionPercentage assignments rows =
          if assignments.length = 0 then 0
          else pyRound2 (100 * (rows.countP (fun p => ¬ (p.completed_at = none)) : ℚ)
            / (assignments.length : ℚ))) ∧
    completionPercentage [⟨1, 1, true⟩, ⟨2, 2, true⟩, ⟨3, 3, true⟩]
      [{ Progress.init with completed_at := some 1 },
       { Progress.init with completed_at := some 2 },
       Progress.init] = 6667/100 := by
  refine ⟨completionPercentage_eq, ?_⟩
  rw [completionPercentage_eq]
  have hc : (([{ Progress.init with completed_at := some 1 },
      { Progress.init with completed_at := some 2 },
      Progress.init] : List Progress).countP (fun p => ¬ (p.completed_at = none))) = 2 := by
    decide
  rw [hc, show ([⟨1, 1, true⟩, ⟨2, 2, true⟩, ⟨3, 3, true⟩] : List ContentAssignment).length = 3
    from rfl]
  norm_num [pyRound2, pyRound]

/-- When no row matches the key, the lookup-and-update pass leaves the
store untouched. -/
theorem updateMatchingProgress_no_match (key : ProgressKey) (score : ℚ)
    (passed : Bool) (now : ℕ) :
    ∀ (rows : List ProgressRow), (∀ r ∈ rows, r.key ≠ key) →
      updateMatchingProgress key score passed now rows = rows := by
  intro rows
  induction rows with
  | nil => intro _; rfl
  | cons r rs ih =>
    intro h
    simp only [updateMatchingProgress]
    rw [if_neg (h r (by simp)), ih (fun x hx => h x (List.mem_cons_of_mem r hx))]

/-- When a row matches the key and no earlier row does, exactly that row
is replaced by its assessment-updated version. -/
theorem updateMatchingProgress_found (key : ProgressKey) (score : ℚ)
    (passed : Bool) (now : ℕ) (rows₂ : List ProgressRow) (r : ProgressRow)
    (hr : r.key = key) :
    ∀ (rows₁ : List ProgressRow), (∀ x ∈ rows₁, x.key ≠ key) →
      updateMatchingProgress key score passed now (rows₁ ++ r :: rows₂)
        = rows₁ ++ { r with data := applyAssessmentResult r.data score passed now } :: rows₂ := by
  intro rows₁
  induction rows₁ with
  | nil =>
    intro _
    simp [updateMatchingProgress, hr]
  | cons x xs ih =>
    intro h
    simp only [List.cons_append, updateMatchingProgress]
    rw [if_neg (h x (by simp))]
    exact congrArg (List.cons x) (ih (fun y hy => h y (List.mem_cons_of_mem x hy)))

/-- C5: when a submitted assessment is linked to a (truthy) learning path
and to a content item, the progress update is a silent no-op leaving the
store unchanged when no Progress row matches the `(student, path,
content)` key; when the (unique) matching row exists it gets `score` and
`mastery_level` set to the assessment score, and status `completed` with
`completed_at` stamped and `completion_percentage = 100` if passed, or
status `needs_review` if not. -/
theorem c5_assessment_driven_update (sid lp c : ℕ) (score : ℚ) (passed : Bool)
    (now : ℕ) (hlp : lp ≠ 0) :
    (∀ (rows : List ProgressRow), (∀ r ∈ rows, r.key ≠ ⟨sid, lp, c⟩) →
        submitProgressUpdate (some lp) (some c) sid score passed now rows = rows) ∧
    (∀ (rows₁ rows₂ : List ProgressRow) (r : ProgressRow),
        r.key = ⟨sid, lp, c⟩ → (∀ x ∈ rows₁, x.key ≠ ⟨sid, lp, c⟩) →
        submitProgressUpdate (some lp) (some c) sid score passed now (rows₁ ++ r :: rows₂)
          = rows₁ ++ { r with data := applyAssessmentResult r.data score passed now } :: rows₂) ∧
    (∀ (p : Progress),
        (applyAssessmentResult p score passed now).score = some score ∧
        (applyAssessmentResult p score passed now).mastery_level = score ∧
        (passed = true →
          (applyAssessmentResult p score passed now).status = "completed" ∧
          (applyAssessmentResult p score passed now).completed_at = some now ∧
          (applyAssessmentResult p score passed now).completion_percentage = 100) ∧
        (passed = false →
          (applyAssessmentResult p score passed now).status = "needs_review")) := by
  refine ⟨?_, ?_, ?_⟩
  · intro rows h
    simp only [submitProgressUpdate, if_pos hlp]
    exact updateMatchingProgress_no_match _ score passed now rows h
  · intro rows₁ rows₂ r hr h1
    simp only [submitProgressUpdate, if_pos hlp]
    exact updateMatchingProgress_found _ score passed now rows₂ r hr rows₁ h1
  · intro p
    cases passed <;> simp [applyAssessmentResult]

/-- C5 witness: a store with exactly the matching row for student 3,
path 1, content 2 is updated in place on a passing submission. -/
theorem c5_assessment_driven_update_witness :
    submitProgressUpdate (some 1) (some 2) 3 80 true 7
        [⟨⟨3, 1, 2⟩, Progress.init⟩]
      = [⟨⟨3, 1, 2⟩, applyAssessmentResult Progress.init 80 true 7⟩] := by
  simpa using
    (c5_assessment_driven_update 3 1 2 80 true 7 (by decide)).2.1 [] []
      ⟨⟨3, 1, 2⟩, Progress.init⟩ rfl (by simp)

/-- The status block touches none of the four value fields. -/
theorem updateProgressStatus_frame (p : Progress) (st : Option String) (now : ℕ) :
    (updateProgressStatus p st now).completion_percentage = p.completion_percentage ∧
    (updateProgressStatus p st now).time_spent_minutes = p.time_spent_minutes ∧
    (updateProgressStatus p st now).mastery_level = p.mastery_level ∧
    (updateProgressStatus p st now).score = p.score := by
  cases st with
  | none => exact ⟨rfl, rfl, rfl, rfl⟩
  | some s =>
    simp only [updateProgressStatus]
    split_ifs <;> exact ⟨rfl, rfl, rfl, rfl⟩

/-- A `started_at` timestamp, once set, survives the status block. -/
theorem updateProgressStatus_started_at_some (p : Progress) (st : Option String)
    (now t : ℕ) (h : p.started_at = some t) :
    (updateProgressStatus p st now).started_at = some t := by
  cases st with
  | none => simpa [updateProgressStatus] using h
  | some s =>
    simp only [updateProgressStatus]
    split_ifs <;> simp_all

/-- The first transition into `in_progress` on a record without a
`started_at` stamps it. -/
theorem updateProgressStatus_stamps_started (p : Progress) (now : ℕ)
    (h : p.started_at = none) :
    (updateProgressStatus p (some "in_progress") now).started_at = some now := by
  simp [updateProgressStatus, h]

/-- C6: fields absent from the payload are left unchanged by a manual
update (never nulled out), `started_at` is stamped on a transition into
`in_progress` when unset, and an already-set `started_at` is never
changed (so a second `in_progress` update leaves it alone). -/
theorem c6_partial_update_frame (p : Progress) (payload : ProgressInput) (now : ℕ) :
    (payload.completion_percentage = none →
      (update_progress p payload now).completion_percentage = p.completion_percentage) ∧
    (payload.time_spent_minutes = none →
      (update_progress p payload now).time_spent_minutes = p.time_spent_minutes) ∧
    (payload.mastery_level = none →
      (update_progress p payload now).mastery_level = p.mastery_level) ∧
    (payload.score = none →
      (update_progress p payload now).score = p.score) ∧
    (payload.status = some "in_progress" → p.started_at = none →
      (update_progress p payload now).started_at = some now) ∧
    (∀ t, p.started_at = some t →
      (update_progress p payload now).started_at = some t) := by
  rcases payload with ⟨st, cp, ts, ml, sc⟩
  refine ⟨?_, ?_, ?_, ?_, ?_, ?_⟩
  · intro h
    subst h
    cases ts <;> cases ml <;> cases sc <;>
      simpa [update_progress] using (updateProgressStatus_frame p st now).1
  · intro h
    subst h
    cases cp <;> cases ml <;> cases sc <;>
      simpa [update_progress] using (updateProgressStatus_frame p st now).2.1
  · intro h
    subst h
    cases cp <;> cases ts <;> cases sc <;>
      simpa [update_progress] using (updateProgressStatus_frame p st now).2.2.1
  · intro h
    subst h
    cases cp <;> cases ts <;> cases ml <;>
      simpa [update_progress] using (updateProgressStatus_frame p st now).2.2.2
  · intro hst h
    simp only at hst
    subst hst
    rw [(update_progress_proj p ⟨some "in_progress", cp, ts, ml, sc⟩ now).2.1]
    exact updateProgressStatus_stamps_started p now h
  · intro t h
    rw [(update_progress_proj p ⟨st, cp, ts, ml, sc⟩ now).2.1]
    exact updateProgressStatus_started_at_some p _ now t h

/-- C6 witness: scenario C concretely — a first `in_progress` update on a
fresh record stamps `started_at := now`, and a second `in_progress`
update at a later time leaves the original stamp unchanged. -/
theorem c6_partial_update_frame_witness :
    (update_progress Progress.init
        { ProgressInput.empty with status := some "in_progress" } 5).started_at = some 5 ∧
    (update_progress
        (update_progress Progress.init
          { ProgressInput.empty with status := some "in_progress" } 5)
        { ProgressInput.empty with status := some "in_progress" } 9).started_at = some 5 := by
  constructor
  · exact (c6_partial_update_frame Progress.init
      { ProgressInput.empty with status := some "in_progress" } 5).2.2.2.2.1 rfl rfl
  · exact (c6_partial_update_frame
      (update_progress Progress.init
        { ProgressInput.empty with status := some "in_progress" } 5)
      { ProgressInput.empty with status := some "in_progress" } 9).2.2.2.2.2 5 (by decide)

/-- The goal-parsing loop is a filter of the stripped lines by the
bullet-and-length test, mapped to the cleaned texts. -/
theorem extractGoals_eq_filter (response : String) :
    extractGoals response =
      ((splitOnChar (Char.ofNat 10) response.toList).filter
        (fun raw => validGoalLine (pyStrip raw))).map
        (fun raw => String.mk (cleanGoal (pyStrip raw))) := by
  have hfun : (fun (goals : List String) (rawLine : List Char) =>
      let line := pyStrip rawLine
      if isBulletLine line then
        let goal := cleanGoal line
        if ¬ (goal = []) && goal.length > 10 then goals ++ [String.mk goal] else goals
      else goals)
      = (fun goals raw =>
          if validGoalLine (pyStrip raw) then
            goals ++ [String.mk (cleanGoal (pyStrip raw))] else goals) := by
    funext goals raw
    simp only [validGoalLine]
    by_cases h1 : isBulletLine (pyStrip raw) <;>
      by_cases h2 : cleanGoal (pyStrip raw) = [] <;>
      by_cases h3 : (cleanGoal (pyStrip raw)).length > 10 <;>
      simp [h1, h2, h3]
  rw [extractGoals, hfun, foldl_filter_append]
  simp

/-- Every goal the parser keeps has more than 10 characters. -/
theorem extractGoals_length (response : String) :
    ∀ g ∈ extractGoals response, 10 < g.length := by
  intro g hg
  rw [extractGoals_eq_filter] at hg
  simp only [List.mem_map, List.mem_filter] at hg
  obtain ⟨raw, ⟨_, hvalid⟩, rfl⟩ := hg
  simp only [validGoalLine, Bool.and_eq_true, decide_eq_true_eq, gt_iff_lt] at hvalid
  simpa [String.length] using hvalid.2.2

/-- C7 counterexample: a response whose three bullet lines each clean to a
text of exactly 10 characters (not "shorter than 10") is nevertheless
fully discarded — the code keeps only goals strictly longer than 10 — so
the parse falls back to the 4 fixed goals instead of returning the three
10-character items as the claim's discard rule implies. -/
theorem c7_boundary_counterexample :
    cleanGoal ("- abcdefghij".toList) = "abcdefghij".toList ∧
    ("abcdefghij".toList).length = 10 ∧
    GrokService.generatePersonalizedGoals 5 "Math" "beginner"
        (.ok "- abcdefghij\n- bcdefghijk\n- cdefghijkl")
      = (GrokService.getFallbackGoals "Math" "beginner", true) ∧
    GrokService.getFallbackGoals "Math" "beginner" ≠
      ["abcdefghij", "bcdefghijk", "cdefghijkl"] := by
  refine ⟨by decide, by decide, by decide, by decide⟩

/-- C7 (amended): bullet/numbered lines are extracted and cleaned of
bullet markers; cleaned items of 10 characters or fewer are discarded
(the code requires length strictly greater than 10); if fewer than 3
valid goals remain the whole response is discarded for the fixed 4-goal
fallback parameterized by subject and difficulty, and otherwise at most
5 cleaned goals are returned. -/
theorem c7_goal_parsing_amended (student_grade : ℤ)
    (subject difficulty response : String)
    (hg : ¬ student_grade < 1) (hs : subject ≠ "")
    (hr : pyStrip response.toList ≠ []) :
    (extractGoals response =
      ((splitOnChar (Char.ofNat 10) response.toList).filter
        (fun raw => validGoalLine (pyStrip raw))).map
        (fun raw => String.mk (cleanGoal (pyStrip raw)))) ∧
    (∀ g ∈ extractGoals response, 10 < g.length) ∧
    ((extractGoals response).length < 3 →
      GrokService.generatePersonalizedGoals student_grade subject difficulty (.ok response)
        = (GrokService.getFallbackGoals subject difficulty, true)) ∧
    (3 ≤ (extractGoals response).length →
      GrokService.generatePersonalizedGoals student_grade subject difficulty (.ok response)
        = ((extractGoals response).take 5, true) ∧
      ((extractGoals response).take 5).length ≤ 5) ∧
    (GrokService.getFallbackGoals subject difficulty).length = 4 := by
  refine ⟨extractGoals_eq_filter response, extractGoals_length response, ?_, ?_, ?_⟩
  · intro hlt
    simp [GrokService.generatePersonalizedGoals, hs, hg, hr,
      Nat.not_le.mpr hlt]
  · intro hge
    have hr' : ¬ pyStrip response.data = [] := by simpa [String.toList] using hr
    refine ⟨?_, ?_⟩
    · simp [GrokService.generatePersonalizedGoals, hs, hg, hr', hge]
    · exact List.length_take_le 5 (extractGoals response)
  · simp [GrokService.getFallbackGoals]

/-- C7 witness, which is also spec scenario D: a response with exactly 2
valid cleaned lines is discarded in favour of the 4-goal fallback. -/
theorem c7_goal_parsing_amended_witness :
    GrokService.generatePersonalizedGoals 5 "Math" "beginner"
        (.ok "- Understand fractions deeply\n- Practice daily word problems")
      = (GrokService.getFallbackGoals "Math" "beginner", true) :=
  (c7_goal_parsing_amended 5 "Math" "beginner"
      "- Understand fractions deeply\n- Practice daily word problems"
      (by decide) (by decide) (by decide)).2.2.1 (by decide)

/-- The error classifier can only produce one of the four fixed fallback
messages. -/
theorem chatErrorFallback_mem (msg : String) :
    chatErrorFallback msg ∈
      [timeoutFallbackMessage, authFallbackMessage, rateLimitFallbackMessage,
        genericFallbackMessage] := by
  simp only [chatErrorFallback]
  split_ifs <;> simp

/-- C8: when the LLM client raises an error on a non-empty query, the chat
returns exactly the classified fallback message — one of the four fixed
messages, and exactly the timeout message whenever the lowercased error
text contains "timeout" — and the endpoint still persists a session row
whose `response` is that same fallback text. -/
theorem c8_error_fallback (snap : MentorSnapshot) (lp : Option ℕ)
    (stype query msg : String) (sessions : List AIMentorSession)
    (hq : pyStrip query.toList ≠ []) :
    GrokService.chat query (.error msg) = chatErrorFallback msg ∧
    chatErrorFallback msg ∈
      [timeoutFallbackMessage, authFallbackMessage, rateLimitFallbackMessage,
        genericFallbackMessage] ∧
    (containsSub (pyLower msg.toList) "timeout".toList = true →
      chatErrorFallback msg = timeoutFallbackMessage) ∧
    (chatWithAIMentor snap lp stype query (.error msg) sessions).1
      = chatErrorFallback msg ∧
    (chatWithAIMentor snap lp stype query (.error msg) sessions).2
      = sessions ++
        [⟨snap.student_id, lp, stype, query, chatErrorFallback msg,
          (buildMentorContext snap).1⟩] := by
  have hq' : ¬ pyStrip query.data = [] := by simpa [String.toList] using hq
  have h1 : GrokService.chat query (.error msg) = chatErrorFallback msg := by
    simp [GrokService.chat, hq']
  refine ⟨h1, chatErrorFallback_mem msg, ?_, ?_, ?_⟩
  · intro ht
    simp only [chatErrorFallback]
    simp_all
  · simp [chatWithAIMentor, h1]
  · simp [chatWithAIMentor, h1]

/-- C8 witness: a concrete timeout error yields exactly the timeout
fallback message. -/
theorem c8_error_fallback_witness :
    GrokService.chat "Help me" (.error "Connection timeout after 15s")
        = chatErrorFallback "Connection timeout after 15s" ∧
      chatErrorFallback "Connection timeout after 15s" = timeoutFallbackMessage := by
  have h := c8_error_fallback ⟨1, ⟨5, "Ana"⟩, none, none, [], []⟩ none "help"
    "Help me" "Connection timeout after 15s" [] (by decide)
  exact ⟨h.1, h.2.2.1 (by decide)⟩

/-- C9: the context bundle construction is a pure function of the Progress
snapshot — two invocations against identical snapshots produce identical
`context_data` and identical system-context text. -/
theorem c9_context_determinism (s₁ s₂ : MentorSnapshot) (h : s₁ = s₂) :
    buildMentorContext s₁ = buildMentorContext s₂ := by
  rw [h]

/-- C9 witness: determinism at a concrete snapshot. -/
theorem c9_context_determinism_witness :
    buildMentorContext ⟨1, ⟨5, "Ana"⟩, none, none, [], []⟩
      = buildMentorContext ⟨1, ⟨5, "Ana"⟩, none, none, [], []⟩ :=
  c9_context_determinism ⟨1, ⟨5, "Ana"⟩, none, none, [], []⟩
    ⟨1, ⟨5, "Ana"⟩, none, none, [], []⟩ rfl

/-- C10: an empty subject or a grade below 1 short-circuits goal
generation to the deterministic 4-goal fallback with the LLM client never
invoked (the returned flag records whether the client was called), for
every possible client outcome. -/
theorem c10_input_validation_guard (student_grade : ℤ)
    (subject difficulty : String) (outcome : LLMOutcome)
    (h : subject = "" ∨ student_grade < 1) :
    GrokService.generatePersonalizedGoals student_grade subject difficulty outcome
      = (GrokService.getFallbackGoals subject difficulty, false) := by
  rcases h with h | h <;> simp [GrokService.generatePersonalizedGoals, h]

/-- C10 witness: concrete empty subject. -/
theorem c10_input_validation_guard_witness :
    GrokService.generatePersonalizedGoals 5 "" "beginner" (.error "timeout")
      = (GrokService.getFallbackGoals "" "beginner", false) :=
  c10_input_validation_guard 5 "" "beginner" (.error "timeout") (Or.inl rfl)

end LXP

